import Mathlib

/-!
Verification of the parcour-backend courier dispatch core: the parcel
lifecycle state machine, the assignment coordinator, the agent presence
registry, the location broadcast router and the subscription manager.

The definitions below are a shallow embedding of the TypeScript source.
Database tables are lists of rows; Prisma find/update/upsert calls become
list operations; the in-memory socket maps become functions from keys to
optional values.  Timestamps are abstracted away (no claim concerns them)
and JavaScript numbers carrying coordinates are modelled as rationals,
which captures exactly the comparisons the code performs on them.

The repository contains several revisions of the same controllers
(src/src/controllers plus the unnamed parts).  Where revisions diverge the
embedding keeps each cited revision as its own definition, named after the
source location it is taken from.
-/

namespace Parcour

/-- Parcel lifecycle states, from the Prisma ParcelStatus enum. -/
inductive ParcelStatus where
  | pending
  | assigned
  | picked_up
  | in_transit
  | delivered
  | failed
deriving DecidableEq, Repr

/-- User roles, from the Prisma UserRole enum. -/
inductive UserRole where
  | admin
  | agent
  | customer
deriving DecidableEq, Repr

/-- Agent availability states, from the Prisma AgentLocationStatus enum. -/
inductive AgentLocationStatus where
  | available
  | on_delivery
deriving DecidableEq, Repr

/-- A User row: the fields the modelled handlers read (id and role). -/
structure User where
  id : String
  role : UserRole
deriving DecidableEq, Repr

/-- A Parcel row: the fields the modelled handlers read and write. -/
structure Parcel where
  id : String
  customerId : String
  status : ParcelStatus
deriving DecidableEq, Repr

/-- A ParcelAssignment row, unique on parcelId. -/
structure Assignment where
  parcelId : String
  agentId : String
  assignedBy : String
deriving DecidableEq, Repr

/-- An AgentLocation row, unique on agentId.  Coordinates as rationals. -/
structure AgentLocation where
  agentId : String
  latitude : ℚ
  longitude : ℚ
  status : AgentLocationStatus
deriving DecidableEq, Repr

/-- A ParcelActivity row (append-only audit log). -/
structure Activity where
  parcelId : String
  action : String
  activityBy : String
  role : UserRole
deriving DecidableEq, Repr

/-- The persistent database state: one list of rows per table. -/
structure DB where
  users : List User
  parcels : List Parcel
  assignments : List Assignment
  agentLocations : List AgentLocation
  activities : List Activity
deriving DecidableEq, Repr

/-- prisma.user.findUnique on id. -/
def findUser (l : List User) (uid : String) : Option User :=
  l.find? (fun u => u.id == uid)

/-- prisma.parcel.findUnique on id. -/
def findParcel (l : List Parcel) (pid : String) : Option Parcel :=
  l.find? (fun p => p.id == pid)

/-- prisma.parcel.update on the unique id, writing only the status field. -/
def setParcelStatus (l : List Parcel) (pid : String) (s : ParcelStatus) : List Parcel :=
  l.map (fun p => if p.id == pid then { p with status := s } else p)

/-- prisma.parcelAssignment.findUnique on parcelId. -/
def findAssignmentRow (l : List Assignment) (pid : String) : Option Assignment :=
  l.find? (fun a => a.parcelId == pid)

/-- prisma.parcelAssignment.upsert keyed on parcelId: overwrite
agentId/assignedBy when a row exists, otherwise create the row. -/
def upsertAssignment (l : List Assignment) (pid gid actor : String) : List Assignment :=
  if l.any (fun a => a.parcelId == pid) then
    l.map (fun a => if a.parcelId == pid then { a with agentId := gid, assignedBy := actor } else a)
  else
    l ++ [⟨pid, gid, actor⟩]

/-- prisma.agentLocation.findUnique on agentId. -/
def findAgentLocation (l : List AgentLocation) (aid : String) : Option AgentLocation :=
  l.find? (fun r => r.agentId == aid)

/-- prisma.agentLocation.upsert keyed on agentId.  The update branch writes
status updSt, the create branch writes status newSt: the two call sites pass
different defaults, so both payloads are parameters. -/
def upsertAgentLocation (l : List AgentLocation) (aid : String) (lat lng : ℚ)
    (updSt newSt : AgentLocationStatus) : List AgentLocation :=
  if l.any (fun r => r.agentId == aid) then
    l.map (fun r => if r.agentId == aid then ⟨r.agentId, lat, lng, updSt⟩ else r)
  else
    l ++ [⟨aid, lat, lng, newSt⟩]

/-!  State Machine Engine: getValidStatusTransitions from
src/src/controllers/parcelController.ts (and identically, modulo the
casing of the enum constant names, from src/unnamed/part_010).  -/

/-- The transition table: for a current status and a role, the list of
allowed next statuses; the fallback for a pair absent from the table is the
empty list, exactly as the source's `transitions[currentStatus]?.[userRole] || []`. -/
def getValidStatusTransitions (currentStatus : ParcelStatus) (userRole : UserRole) :
    List ParcelStatus :=
  match currentStatus, userRole with
  | .pending, .admin => [.assigned]
  | .assigned, .agent => [.picked_up]
  | .assigned, .admin => [.picked_up, .pending]
  | .picked_up, .agent => [.in_transit]
  | .picked_up, .admin => [.in_transit, .assigned]
  | .in_transit, .agent => [.delivered, .failed]
  | .in_transit, .admin => [.delivered, .failed, .picked_up]
  | .delivered, .admin => [.in_transit]
  | .failed, .admin => [.pending, .assigned]
  | _, _ => []

/-- The caller's check `validTransitions.includes(status)` from
updateParcelStatus: a transition is allowed when the requested status is in
the table entry. -/
def validateTransition (current : ParcelStatus) (role : UserRole)
    (requested : ParcelStatus) : Bool :=
  (getValidStatusTransitions current role).contains requested

/-- Written from the words of the canonical table in section 4.1 of the
spec, to be compared with the implementation: pending to assigned for
admin; assigned to picked_up for agent, and picked_up or pending for admin;
picked_up to in_transit for agent, and in_transit or assigned for admin;
in_transit to delivered or failed for agent, and delivered, failed or
picked_up for admin; delivered to in_transit for admin; failed to pending
or assigned for admin; everything else, and every role other than
agent/admin, is denied. -/
def specAllows (current : ParcelStatus) (role : UserRole)
    (requested : ParcelStatus) : Bool :=
  match current, role, requested with
  | .pending, .admin, .assigned => true
  | .assigned, .agent, .picked_up => true
  | .assigned, .admin, .picked_up => true
  | .assigned, .admin, .pending => true
  | .picked_up, .agent, .in_transit => true
  | .picked_up, .admin, .in_transit => true
  | .picked_up, .admin, .assigned => true
  | .in_transit, .agent, .delivered => true
  | .in_transit, .agent, .failed => true
  | .in_transit, .admin, .delivered => true
  | .in_transit, .admin, .failed => true
  | .in_transit, .admin, .picked_up => true
  | .delivered, .admin, .in_transit => true
  | .failed, .admin, .pending => true
  | .failed, .admin, .assigned => true
  | _, _, _ => false

/-!  Assignment Coordinator: assignAgentToParcel.  Two revisions of this
controller exist in the repository.  In the revision at
src/unnamed/part_008 the callback passed to prisma.dollar-transaction
performs all three writes through the base prisma client instead of the
transaction client tx, so those writes commit immediately and are NOT
rolled back when a later statement of the callback throws.  The revision
at src/unnamed/part_009 routes the assignment upsert and the conditional
parcel update through tx (so they roll back together) and performs the
activity insert after the transaction has committed.  -/

/-- Coordinator responses: notFound for a missing or non-agent user,
serverError for the catch-all handler (which also receives the thrown
conditional-update failure), success otherwise. -/
inductive AssignResponse where
  | notFound
  | serverError
  | success
deriving DecidableEq, Repr

/-- The HTTP response together with the database state after the call. -/
structure AssignOutcome where
  response : AssignResponse
  db : DB
deriving DecidableEq, Repr

/-- The activity row appended by both revisions on the success path. -/
def assignedActivity (parcelId actorId : String) : Activity :=
  ⟨parcelId, "assigned", actorId, .admin⟩

/-- assignAgentToParcel from src/unnamed/part_008.  The agent must exist
with role agent, else notFound.  Inside the transaction callback the code
calls prisma.parcelAssignment.upsert, prisma.parcel.update (guarded by
status in [pending, assigned]) and prisma.parcelActivity.create on the
base client, so each write commits as soon as it runs.  When the parcel
row is missing the upsert itself fails on the parcelId foreign key and
nothing is written; when the parcel exists but its status is outside
[pending, assigned] the upsert has already committed and the conditional
update throws, leaving the new assignment row behind. -/
def assignAgentToParcel_part008 (db : DB) (actorId parcelId agentId : String) :
    AssignOutcome :=
  match findUser db.users agentId with
  | none => ⟨.notFound, db⟩
  | some u =>
    if u.role = .agent then
      match findParcel db.parcels parcelId with
      | none => ⟨.serverError, db⟩
      | some p =>
        let db1 := { db with assignments := upsertAssignment db.assignments parcelId agentId actorId }
        if p.status = .pending ∨ p.status = .assigned then
          let db2 := { db1 with parcels := setParcelStatus db1.parcels parcelId .assigned }
          ⟨.success, { db2 with activities := db2.activities ++ [assignedActivity parcelId actorId] }⟩
        else
          ⟨.serverError, db1⟩
    else
      ⟨.notFound, db⟩

/-- assignAgentToParcel from src/unnamed/part_009.  Same checks, but the
assignment upsert and the conditional parcel update run on the transaction
client tx: when the conditional update throws (parcel missing, or status
outside [pending, assigned]) the upsert is rolled back with it and the
database is unchanged; the rollback is modelled by not applying the upsert
on the failing branches.  The activity insert runs after the transaction
commits, on the success path only. -/
def assignAgentToParcel_part009 (db : DB) (actorId parcelId agentId : String) :
    AssignOutcome :=
  match findUser db.users agentId with
  | none => ⟨.notFound, db⟩
  | some u =>
    if u.role = .agent then
      match findParcel db.parcels parcelId with
      | none => ⟨.serverError, db⟩
      | some p =>
        if p.status = .pending ∨ p.status = .assigned then
          let db1 := { db with
            assignments := upsertAssignment db.assignments parcelId agentId actorId,
            parcels := setParcelStatus db.parcels parcelId .assigned }
          ⟨.success, { db1 with activities := db1.activities ++ [assignedActivity parcelId actorId] }⟩
        else
          ⟨.serverError, db⟩
    else
      ⟨.notFound, db⟩

/-!  Location Broadcast Router.  Two entry points exist in the source: the
socket handler handleLocationUpdate in src/src/services/locationService.ts
and the HTTP controller updateAgentLocation in
src/src/controllers/agentController.ts.  -/

/-- The payload of an agent:location-update socket event; the status field
is optional. -/
structure LocationUpdateMsg where
  latitude : ℚ
  longitude : ℚ
  status : Option AgentLocationStatus
deriving DecidableEq, Repr

/-- A parcel:location-update event emitted to a socket.io room. -/
structure BroadcastEvent where
  room : String
  parcelId : String
  latitude : ℚ
  longitude : ℚ
  status : AgentLocationStatus
deriving DecidableEq, Repr

/-- The effect of one socket location report: the database afterwards, the
events fanned out to customer rooms, and whether location:updated
{success: true} was acknowledged to the agent. -/
structure SocketLocationResult where
  db : DB
  broadcasts : List BroadcastEvent
  ack : Bool
deriving DecidableEq, Repr

/-- Statuses in the live set of the broadcast query:
[ParcelStatus.assigned, ParcelStatus.picked_up, ParcelStatus.in_transit]. -/
def liveStatus : ParcelStatus → Bool
  | .assigned => true
  | .picked_up => true
  | .in_transit => true
  | _ => false

/-- The agent a parcel is assigned to, through the assignment relation. -/
def assignedAgent (db : DB) (pid : String) : Option String :=
  (findAssignmentRow db.assignments pid).map (fun a => a.agentId)

/-- The prisma.parcel.findMany of handleLocationUpdate: parcels whose
assignment carries this agentId and whose status is in the live set. -/
def activeParcelsFor (db : DB) (agentId : String) : List Parcel :=
  db.parcels.filter (fun p => assignedAgent db p.id == some agentId && liveStatus p.status)

/-- handleLocationUpdate from src/src/services/locationService.ts lines
108-162.  A non-agent caller is ignored.  The destructuring default
resolves an unspecified status to available (the same value reaches the
update and the create branch of the upsert).  There is no range check on
the coordinates.  After the upsert the live parcels of the agent are
queried and one event per parcel is emitted to the room
customer:<customerId> of that parcel, carrying the upserted row's
coordinates and status; the handler then acknowledges success. -/
def handleLocationUpdate (db : DB) (role : UserRole) (agentId : String)
    (msg : LocationUpdateMsg) : SocketLocationResult :=
  if role = .agent then
    let status := msg.status.getD .available
    let db' := { db with
      agentLocations :=
        upsertAgentLocation db.agentLocations agentId msg.latitude msg.longitude status status }
    let events := (activeParcelsFor db' agentId).map (fun p =>
      ⟨"customer:" ++ p.customerId, p.id, msg.latitude, msg.longitude, status⟩)
    ⟨db', events, true⟩
  else
    ⟨db, [], false⟩

/-- HTTP responses of updateAgentLocation: an error with the message the
controller sends, or success. -/
inductive HttpResult where
  | error (msg : String)
  | success
deriving DecidableEq, Repr

/-- updateAgentLocation from src/src/controllers/agentController.ts lines
8-51 (the revision with coordinate validation; the claims cite its lines
13-27 and 30-44).  The guard `if (!latitude || !longitude)` tests
JavaScript falsiness, which for a number is being zero, before the range
checks run.  The upsert defaults an unspecified status to on_delivery in
the update branch and to available in the create branch. -/
def updateAgentLocation (db : DB) (agentId : String) (latitude longitude : ℚ)
    (status : Option AgentLocationStatus) : HttpResult × DB :=
  if latitude = 0 ∨ longitude = 0 then
    (.error "Latitude and longitude required", db)
  else if latitude < -90 ∨ latitude > 90 then
    (.error "Invalid latitude. Must be between -90 and 90", db)
  else if longitude < -180 ∨ longitude > 180 then
    (.error "Invalid longitude. Must be between -180 and 180", db)
  else
    (.success, { db with
      agentLocations := upsertAgentLocation db.agentLocations agentId latitude longitude
        (status.getD .on_delivery) (status.getD .available) })

/-!  Presence Registry: the two in-memory maps of LocationService
(connectedAgents : agentId to socketId, agentSockets : socketId to
agentId) and the connect/disconnect handlers that mutate them.  -/

/-- The two socket maps, modelled as functions to optional values. -/
structure Presence where
  connectedAgents : String → Option String
  agentSockets : String → Option String

/-- Map.set on a string-keyed map. -/
def mapSet (m : String → Option String) (k v : String) : String → Option String :=
  fun x => if x = k then some v else m x

/-- Map.delete on a string-keyed map. -/
def mapDelete (m : String → Option String) (k : String) : String → Option String :=
  fun x => if x = k then none else m x

/-- The registry with no connections. -/
def emptyPresence : Presence :=
  ⟨fun _ => none, fun _ => none⟩

/-- The presence mutation of handleAgentConnect (locationService.ts lines
84-106): set connectedAgents[agentId] and agentSockets[socketId].  A prior
entry of the same agent in connectedAgents is overwritten, but its reverse
entry under the old socket id stays in agentSockets.  (The lastActive
stamp touches a table no claim reads and is not modelled.) -/
def handleAgentConnect (st : Presence) (agentId socketId : String) : Presence :=
  ⟨mapSet st.connectedAgents agentId socketId, mapSet st.agentSockets socketId agentId⟩

/-- Reset the stored availability of one agent to available, as the
prisma.agentLocation.update of the disconnect handler does. -/
def resetAvailability (l : List AgentLocation) (aid : String) : List AgentLocation :=
  l.map (fun r => if r.agentId == aid then { r with status := .available } else r)

/-- The identity and coordinates of an AgentLocation row — every field
except the status it stores. -/
def coordsOf (r : AgentLocation) : String × ℚ × ℚ :=
  (r.agentId, r.latitude, r.longitude)

/-- handleDisconnect from locationService.ts lines 235-253: look up the
owning agent of the socket in agentSockets; when found, delete the agent
from connectedAgents and the socket from agentSockets — with no check that
connectedAgents still stores this very socket id — and set that agent's
AgentLocation status to available.  When the socket is unknown nothing
happens. -/
def handleDisconnect (st : Presence) (db : DB) (socketId : String) : Presence × DB :=
  match st.agentSockets socketId with
  | some agentId =>
    (⟨mapDelete st.connectedAgents agentId, mapDelete st.agentSockets socketId⟩,
     { db with agentLocations := resetAvailability db.agentLocations agentId })
  | none => (st, db)

/-!  Subscription Manager: handleParcelTracking from
src/src/services/locationService.ts lines 164-233.  -/

/-- The visible outcome of a customer:track-parcel request: which error was
emitted, or that tracking started; joined is the room the socket joined,
if any. -/
structure TrackOutcome where
  error : Option String
  joined : Option String
  started : Bool
deriving DecidableEq, Repr

/-- handleParcelTracking: a non-customer caller is refused; the parcel is
looked up by findFirst on id AND customerId, so a parcel owned by someone
else behaves like a missing parcel ("Parcel not found or access denied")
and the socket joins nothing; a parcel without an assignment produces
"Parcel not yet assigned to an agent" and the socket joins nothing; only
then does the socket join the room customer:<customerId> and tracking
starts.  (The snapshot push of the agent's current location does not alter
state and is elided.) -/
def handleParcelTracking (db : DB) (role : UserRole) (customerId parcelId : String) :
    TrackOutcome :=
  if role = .customer then
    match db.parcels.find? (fun p => p.id == parcelId && p.customerId == customerId) with
    | none => ⟨some "Parcel not found or access denied", none, false⟩
    | some _ =>
      match findAssignmentRow db.assignments parcelId with
      | none => ⟨some "Parcel not yet assigned to an agent", none, false⟩
      | some _ => ⟨none, some ("customer:" ++ customerId), true⟩
  else
    ⟨some "Only customers can track parcels", none, false⟩

/-!  Concrete states used to evaluate the handlers on specific inputs.  -/

/-- One agent G; one parcel P of customer C1, already picked up; no
assignment row yet. -/
def dbConflict : DB :=
  { users := [⟨"G", .agent⟩],
    parcels := [⟨"P", "C1", .picked_up⟩],
    assignments := [],
    agentLocations := [],
    activities := [] }

/-- One agent G; one pending parcel P of customer C1; nothing else. -/
def dbPending : DB :=
  { users := [⟨"G", .agent⟩],
    parcels := [⟨"P", "C1", .pending⟩],
    assignments := [],
    agentLocations := [],
    activities := [] }

/-- Agent G with one live (assigned) parcel P1 of customer C1 and no
stored location yet. -/
def dbLive : DB :=
  { users := [⟨"G", .agent⟩],
    parcels := [⟨"P1", "C1", .assigned⟩],
    assignments := [⟨"P1", "G", "A"⟩],
    agentLocations := [],
    activities := [] }

/-- Agent G with an existing AgentLocation row whose status is
on_delivery. -/
def dbOnDelivery : DB :=
  { users := [⟨"G", .agent⟩],
    parcels := [],
    assignments := [],
    agentLocations := [⟨"G", 1, 2, .on_delivery⟩],
    activities := [] }

/-- Agent G connects with socket c1, reconnects with socket c2, then the
old socket c1 disconnects. -/
def staleDisconnectScenario : Presence × DB :=
  handleDisconnect
    (handleAgentConnect (handleAgentConnect emptyPresence "G" "c1") "G" "c2")
    dbOnDelivery "c1"

/-- C2: for every (current status, role, requested status) triple, the
implementation's transition check agrees exactly with the canonical table
of section 4.1 of the spec; every pair absent from the table, and every
role other than agent or admin, is denied. -/
theorem validateTransition_matches_spec_table :
    ∀ (c : ParcelStatus) (r : UserRole) (s : ParcelStatus),
      validateTransition c r s = specAllows c r s := by
  intro c r s
  cases c <;> cases r <;> cases s <;> rfl

/-!  Lemmas about the row-level operations, shared by the claim proofs.  -/

/-- Looking up a parcel after its status was written returns the stored
row with the new status. -/
theorem findParcel_setParcelStatus_self (l : List Parcel) (pid : String) (s : ParcelStatus) :
    findParcel (setParcelStatus l pid s) pid
      = (findParcel l pid).map (fun p => { p with status := s }) := by
  induction l with
  | nil => rfl
  | cons p l ih =>
    by_cases h : p.id = pid
    · simp [findParcel, setParcelStatus, List.find?, h]
    · simp only [findParcel, setParcelStatus, List.map_cons] at ih ⊢
      rw [List.find?_cons_of_neg, List.find?_cons_of_neg]
      · exact ih
      · simp [h]
      · simp [h]

/-- After an assignment upsert, the lookup on the same parcel key returns
exactly the upserted row. -/
theorem findAssignmentRow_upsertAssignment_self (l : List Assignment) (pid gid actor : String) :
    findAssignmentRow (upsertAssignment l pid gid actor) pid = some ⟨pid, gid, actor⟩ := by
  unfold upsertAssignment
  by_cases hany : l.any (fun a => a.parcelId == pid)
  · rw [if_pos hany]
    induction l with
    | nil => simp at hany
    | cons a l ih =>
      by_cases h : a.parcelId = pid
      · simp [findAssignmentRow, List.find?, h]
      · have hl : l.any (fun a => a.parcelId == pid) := by
          simpa [List.any_cons, h] using hany
        simp only [findAssignmentRow, List.map_cons] at ih ⊢
        rw [List.find?_cons_of_neg]
        · exact ih hl
        · simp [h]
  · rw [if_neg hany]
    have hnone : l.find? (fun a => a.parcelId == pid) = none := by
      rw [List.find?_eq_none]
      intro x hx hpx
      exact hany (List.any_eq_true.mpr ⟨x, hx, hpx⟩)
    unfold findAssignmentRow
    rw [List.find?_append, hnone]
    simp

/-- After an agent-location upsert, the lookup on the same agent key
returns the upserted coordinates; the stored status is the update payload
when a row already existed and the create payload otherwise. -/
theorem findAgentLocation_upsertAgentLocation_self (l : List AgentLocation) (aid : String)
    (lat lng : ℚ) (updSt newSt : AgentLocationStatus) :
    findAgentLocation (upsertAgentLocation l aid lat lng updSt newSt) aid
      = some ⟨aid, lat, lng,
          if l.any (fun r => r.agentId == aid) then updSt else newSt⟩ := by
  unfold upsertAgentLocation
  by_cases hany : l.any (fun r => r.agentId == aid)
  · rw [if_pos hany, if_pos hany]
    induction l with
    | nil => simp at hany
    | cons r l ih =>
      by_cases h : r.agentId = aid
      · simp [findAgentLocation, List.find?, h]
      · have hl : l.any (fun r => r.agentId == aid) := by
          simpa [List.any_cons, h] using hany
        simp only [findAgentLocation, List.map_cons] at ih ⊢
        rw [List.find?_cons_of_neg]
        · exact ih hl
        · simp [h]
  · rw [if_neg hany, if_neg hany]
    have hnone : l.find? (fun r => r.agentId == aid) = none := by
      rw [List.find?_eq_none]
      intro x hx hpx
      exact hany (List.any_eq_true.mpr ⟨x, hx, hpx⟩)
    unfold findAgentLocation
    rw [List.find?_append, hnone]
    simp

/-- A row found by one test also heads the search for a conjunction of
tests, provided it passes the second test. -/
theorem find?_and_of_find? {α : Type} (l : List α) (f g : α → Bool) (x : α)
    (h : l.find? f = some x) (hg : g x = true) :
    l.find? (fun y => f y && g y) = some x := by
  induction l with
  | nil => simp at h
  | cons a l ih =>
    by_cases hfa : f a
    · rw [List.find?_cons_of_pos _ hfa] at h
      cases h
      rw [List.find?_cons_of_pos]
      simp [hfa, hg]
    · rw [List.find?_cons_of_neg _ hfa] at h
      rw [List.find?_cons_of_neg]
      · exact ih h
      · simp [hfa]

/-- Rows with pairwise distinct keys are determined by their key. -/
theorem row_eq_of_nodup_key {α : Type} (key : α → String) (l : List α)
    (h : (l.map key).Nodup) {x y : α} (hx : x ∈ l) (hy : y ∈ l)
    (hk : key x = key y) : x = y :=
  List.inj_on_of_nodup_map h hx hy hk

/-!  Claim theorems.  -/

/-- C1: the three writes of assignAgentToParcel are meant to be one atomic
unit, with nothing written when the parcel's status is outside {pending,
assigned}.  The part_008 revision violates this: its transaction callback
issues the writes on the base prisma client, so on the failing input below
(valid agent G, parcel P in status picked_up) the call reports an error
yet leaves a fresh Assignment row behind, while the Parcel row keeps
status picked_up and no Activity is appended — exactly the partial
application the claim rules out. -/
theorem assign_part008_partial_write_on_conflict :
    (assignAgentToParcel_part008 dbConflict "A" "P" "G").response = .serverError ∧
    (assignAgentToParcel_part008 dbConflict "A" "P" "G").db.assignments = [⟨"P", "G", "A"⟩] ∧
    (assignAgentToParcel_part008 dbConflict "A" "P" "G").db.parcels = [⟨"P", "C1", .picked_up⟩] ∧
    (assignAgentToParcel_part008 dbConflict "A" "P" "G").db.activities = [] := by
  refine ⟨rfl, rfl, rfl, rfl⟩

/-- C7: in the part_009 revision, whenever the agent id resolves to a user
with the agent role and the parcel's current status is pending or
assigned, the call succeeds; afterwards the parcel's status is assigned,
the assignment row of the parcel carries the given agent (and assigning
actor), and exactly one new Activity with action "assigned" has been
appended.  Instantiated at a pending parcel this is first assignment;
instantiated at an assigned parcel it is the idempotent reassignment,
whose assignment row ends up carrying the new agent. -/
theorem assign_part009_success (db : DB) (actorId parcelId agentId : String)
    (u : User) (hu : findUser db.users agentId = some u) (hrole : u.role = .agent)
    (p : Parcel) (hp : findParcel db.parcels parcelId = some p)
    (hst : p.status = .pending ∨ p.status = .assigned) :
    (assignAgentToParcel_part009 db actorId parcelId agentId).response = .success ∧
    (findParcel (assignAgentToParcel_part009 db actorId parcelId agentId).db.parcels
        parcelId).map Parcel.status = some .assigned ∧
    findAssignmentRow (assignAgentToParcel_part009 db actorId parcelId agentId).db.assignments
        parcelId = some ⟨parcelId, agentId, actorId⟩ ∧
    (assignAgentToParcel_part009 db actorId parcelId agentId).db.activities
      = db.activities ++ [assignedActivity parcelId actorId] := by
  have key : assignAgentToParcel_part009 db actorId parcelId agentId =
      ⟨.success,
        { db with
          assignments := upsertAssignment db.assignments parcelId agentId actorId,
          parcels := setParcelStatus db.parcels parcelId .assigned,
          activities := db.activities ++ [assignedActivity parcelId actorId] }⟩ := by
    unfold assignAgentToParcel_part009
    rw [hu]
    simp only [hrole, if_pos]
    rw [hp]
    simp only [if_pos hst]
  rw [key]
  refine ⟨rfl, ?_, ?_, rfl⟩
  · rw [findParcel_setParcelStatus_self, hp]
    rfl
  · exact findAssignmentRow_upsertAssignment_self db.assignments parcelId agentId actorId

/-- C7 witness: assigning agent G to the pending parcel P of dbPending
succeeds with the promised post-state. -/
theorem assign_part009_success_witness :
    (assignAgentToParcel_part009 dbPending "A" "P" "G").response = .success ∧
    (findParcel (assignAgentToParcel_part009 dbPending "A" "P" "G").db.parcels
        "P").map Parcel.status = some .assigned ∧
    findAssignmentRow (assignAgentToParcel_part009 dbPending "A" "P" "G").db.assignments
        "P" = some ⟨"P", "G", "A"⟩ ∧
    (assignAgentToParcel_part009 dbPending "A" "P" "G").db.activities
      = dbPending.activities ++ [assignedActivity "P" "A"] :=
  assign_part009_success dbPending "A" "P" "G" ⟨"G", .agent⟩ rfl rfl
    ⟨"P", "C1", .pending⟩ rfl (Or.inl rfl)

/-- C3: the claim says a location report with latitude outside [-90, 90]
fails with a Validation error, with no persistence write and no broadcast.
The socket handler handleLocationUpdate performs no range check at all: at
latitude 100 it upserts the AgentLocation row, broadcasts the out-of-range
position to the customer room of the live parcel, and acknowledges
success.  (The HTTP controller updateAgentLocation does perform the
check, so within the repository the two entry points contradict each
other; see zero-coordinate and asymmetry theorems for the HTTP path.) -/
theorem socket_report_accepts_latitude_100 :
    (handleLocationUpdate dbLive .agent "G" ⟨100, 50, none⟩).db.agentLocations
      = [⟨"G", 100, 50, .available⟩] ∧
    (handleLocationUpdate dbLive .agent "G" ⟨100, 50, none⟩).broadcasts
      = [⟨"customer:C1", "P1", 100, 50, .available⟩] ∧
    (handleLocationUpdate dbLive .agent "G" ⟨100, 50, none⟩).ack = true := by
  refine ⟨rfl, rfl, rfl⟩

/-- C4: after a successful location report of agent G, an event is emitted
to the customer room of a parcel exactly when that parcel is assigned to G
and its status lies in the live set {assigned, picked_up, in_transit};
pending, delivered and failed parcels receive nothing.  Stated for any
database whose parcel ids are distinct (they are the primary key). -/
theorem broadcast_iff_live (db : DB) (agentId : String) (msg : LocationUpdateMsg)
    (hnodup : (db.parcels.map Parcel.id).Nodup)
    (p : Parcel) (hp : p ∈ db.parcels) :
    (∃ e ∈ (handleLocationUpdate db .agent agentId msg).broadcasts,
        e.room = "customer:" ++ p.customerId ∧ e.parcelId = p.id) ↔
      (assignedAgent db p.id = some agentId ∧ liveStatus p.status = true) := by
  have hbro : (handleLocationUpdate db .agent agentId msg).broadcasts
      = (db.parcels.filter
          (fun q => assignedAgent db q.id == some agentId && liveStatus q.status)).map
          (fun q => ⟨"customer:" ++ q.customerId, q.id, msg.latitude, msg.longitude,
            msg.status.getD .available⟩) := rfl
  rw [hbro]
  constructor
  · rintro ⟨e, he, hroom, hpid⟩
    rw [List.mem_map] at he
    obtain ⟨q, hqf, rfl⟩ := he
    rw [List.mem_filter] at hqf
    obtain ⟨hq, hcond⟩ := hqf
    have hid : q.id = p.id := hpid
    have hqp : q = p := row_eq_of_nodup_key Parcel.id db.parcels hnodup hq hp hid
    subst hqp
    simpa [Bool.and_eq_true, beq_iff_eq] using hcond
  · rintro ⟨ha, hl⟩
    refine ⟨⟨"customer:" ++ p.customerId, p.id, msg.latitude, msg.longitude,
      msg.status.getD .available⟩, ?_, rfl, rfl⟩
    rw [List.mem_map]
    exact ⟨p, List.mem_filter.mpr ⟨hp, by simp [ha, hl]⟩, rfl⟩

/-- C4 witness: in dbLive, a report from G produces an event for parcel P1
(assigned to G) in the room of its customer C1. -/
theorem broadcast_iff_live_witness :
    ∃ e ∈ (handleLocationUpdate dbLive .agent "G" ⟨5, 6, none⟩).broadcasts,
      e.room = "customer:" ++ "C1" ∧ e.parcelId = "P1" :=
  (broadcast_iff_live dbLive "G" ⟨5, 6, none⟩ (by decide) ⟨"P1", "C1", .assigned⟩
    (by decide)).mpr (by decide)

/-- C5 counterexample: the claim says an unspecified status is stored as
on_delivery when the AgentLocation row already exists.  On the socket path
the destructuring default resolves an unspecified status to available
before the upsert, so an existing on_delivery row is overwritten with
available, not on_delivery. -/
theorem socket_unspecified_status_stores_available :
    (handleLocationUpdate dbOnDelivery .agent "G" ⟨3, 4, none⟩).db.agentLocations
      = [⟨"G", 3, 4, .available⟩] ∧
    AgentLocationStatus.available ≠ AgentLocationStatus.on_delivery :=
  ⟨rfl, by decide⟩

/-- C5 amended: a socket location report with unspecified status stores
available whether the row existed or not; only the HTTP controller
updateAgentLocation has the documented asymmetry, storing on_delivery when
the row already exists and available when it is created. -/
theorem location_status_default_asymmetry (db : DB) (g : String) (lat lng : ℚ) :
    (findAgentLocation (handleLocationUpdate db .agent g ⟨lat, lng, none⟩).db.agentLocations g
        = some ⟨g, lat, lng, .available⟩) ∧
    (¬(lat = 0 ∨ lng = 0) → ¬(lat < -90 ∨ lat > 90) → ¬(lng < -180 ∨ lng > 180) →
      findAgentLocation (updateAgentLocation db g lat lng none).2.agentLocations g
        = some ⟨g, lat, lng,
            if db.agentLocations.any (fun r => r.agentId == g) then .on_delivery
            else .available⟩) := by
  constructor
  · have h0 : (handleLocationUpdate db .agent g ⟨lat, lng, none⟩).db.agentLocations
        = upsertAgentLocation db.agentLocations g lat lng .available .available := rfl
    rw [h0, findAgentLocation_upsertAgentLocation_self, ite_self]
  · intro h0 h1 h2
    unfold updateAgentLocation
    rw [if_neg h0, if_neg h1, if_neg h2]
    exact findAgentLocation_upsertAgentLocation_self db.agentLocations g lat lng
      .on_delivery .available

/-- C5 amended witness: on dbOnDelivery (row exists, status on_delivery)
the HTTP path with unspecified status stores on_delivery. -/
theorem location_status_default_asymmetry_witness :
    findAgentLocation (updateAgentLocation dbOnDelivery "G" 7 8 none).2.agentLocations "G"
      = some ⟨"G", 7, 8, .on_delivery⟩ :=
  (location_status_default_asymmetry dbOnDelivery "G" 7 8).2
    (by decide) (by decide) (by decide)

/-- C6 counterexample: the claim says the registry removes the mapping
only when it still stores this very connection, so that after G connects
with c1, reconnects with c2 and c1 disconnects, G is still mapped to c2.
In the code handleAgentConnect leaves the reverse entry c1 -> G in
agentSockets, and handleDisconnect deletes without comparing connection
identities, so the stale disconnect of c1 removes the fresh mapping to c2
(and resets the agent's availability although the new connection is
alive). -/
theorem stale_disconnect_drops_fresh_connection :
    staleDisconnectScenario.1.connectedAgents "G" ≠ some "c2" ∧
    staleDisconnectScenario.2.agentLocations = [⟨"G", 1, 2, .available⟩] :=
  ⟨by decide, rfl⟩

/-- C6 amended: handleDisconnect looks the agent up in agentSockets and,
whenever any entry for this connection id is present — with no check that
connectedAgents still stores this connection — removes the agent from
connectedAgents (dropping whatever connection is stored there), removes
the reverse entry, and resets the agent's stored availability to
available; when the connection id is unknown nothing changes at all, so
the availability reset happens only on removal. -/
theorem disconnect_removes_on_any_reverse_entry (st : Presence) (db : DB) (c : String) :
    (∀ a, st.agentSockets c = some a →
      (handleDisconnect st db c).1.connectedAgents a = none ∧
      (handleDisconnect st db c).1.agentSockets c = none ∧
      (handleDisconnect st db c).2.agentLocations = resetAvailability db.agentLocations a) ∧
    (st.agentSockets c = none → handleDisconnect st db c = (st, db)) := by
  constructor
  · intro a ha
    refine ⟨?_, ?_, ?_⟩ <;> simp [handleDisconnect, ha, mapDelete]
  · intro ha
    simp [handleDisconnect, ha]

/-- C6 amended witness: after G connects with c1 only, the disconnect of
c1 removes the mapping of G. -/
theorem disconnect_removes_on_any_reverse_entry_witness :
    (handleDisconnect (handleAgentConnect emptyPresence "G" "c1") dbOnDelivery
        "c1").1.connectedAgents "G" = none :=
  ((disconnect_removes_on_any_reverse_entry (handleAgentConnect emptyPresence "G" "c1")
    dbOnDelivery "c1").1 "G" (by decide)).1

/-- C8: a customer's track-parcel request on a parcel owned by a different
customer yields the access-denied error and joins no room; on an owned
parcel without an assignment it yields the not-yet-assigned error and
joins no room; only when the parcel is owned and assigned does the socket
join the room customer:<customerId>.  Stated for any database whose parcel
ids are distinct. -/
theorem track_parcel_checks (db : DB) (customerId parcelId : String)
    (hnodup : (db.parcels.map Parcel.id).Nodup)
    (p : Parcel) (hp : findParcel db.parcels parcelId = some p) :
    (p.customerId ≠ customerId →
      handleParcelTracking db .customer customerId parcelId
        = ⟨some "Parcel not found or access denied", none, false⟩) ∧
    (p.customerId = customerId → findAssignmentRow db.assignments parcelId = none →
      handleParcelTracking db .customer customerId parcelId
        = ⟨some "Parcel not yet assigned to an agent", none, false⟩) ∧
    (p.customerId = customerId → ∀ a, findAssignmentRow db.assignments parcelId = some a →
      handleParcelTracking db .customer customerId parcelId
        = ⟨none, some ("customer:" ++ customerId), true⟩) := by
  have hpmem : p ∈ db.parcels := List.mem_of_find?_eq_some hp
  have hpid : p.id = parcelId := by
    have := List.find?_some hp
    simpa using this
  refine ⟨?_, ?_, ?_⟩
  · intro hne
    have hnone : db.parcels.find? (fun q => q.id == parcelId && q.customerId == customerId)
        = none := by
      rw [List.find?_eq_none]
      intro x hx hpx
      simp only [Bool.and_eq_true, beq_iff_eq] at hpx
      have hxp : x = p :=
        row_eq_of_nodup_key Parcel.id db.parcels hnodup hx hpmem (hpx.1.trans hpid.symm)
      exact hne (hxp ▸ hpx.2)
    simp [handleParcelTracking, hnone]
  · intro hcid hassign
    have hsome : db.parcels.find? (fun q => q.id == parcelId && q.customerId == customerId)
        = some p :=
      find?_and_of_find? db.parcels _ _ p hp (by simp [hcid])
    simp [handleParcelTracking, hsome, hassign]
  · intro hcid a hassign
    have hsome : db.parcels.find? (fun q => q.id == parcelId && q.customerId == customerId)
        = some p :=
      find?_and_of_find? db.parcels _ _ p hp (by simp [hcid])
    simp [handleParcelTracking, hsome, hassign]

/-- C8 witness: customer C2 asking to track the parcel P of customer C1 is
denied and joins nothing. -/
theorem track_parcel_checks_witness :
    handleParcelTracking dbPending .customer "C2" "P"
      = ⟨some "Parcel not found or access denied", none, false⟩ :=
  (track_parcel_checks dbPending "C2" "P" (by decide) ⟨"P", "C1", .pending⟩ rfl).1
    (by decide)

/-- C9: a disconnect leaves every User, Parcel, Assignment and Activity
row unchanged, and of the AgentLocation rows it preserves identity and
coordinates — any row it rewrites only has its status set to available. -/
theorem disconnect_touches_only_availability (st : Presence) (db : DB) (c : String) :
    (handleDisconnect st db c).2.users = db.users ∧
    (handleDisconnect st db c).2.parcels = db.parcels ∧
    (handleDisconnect st db c).2.assignments = db.assignments ∧
    (handleDisconnect st db c).2.activities = db.activities ∧
    (handleDisconnect st db c).2.agentLocations.map coordsOf
      = db.agentLocations.map coordsOf ∧
    ∀ r ∈ (handleDisconnect st db c).2.agentLocations,
      r.status = .available ∨ r ∈ db.agentLocations := by
  unfold handleDisconnect
  cases h : st.agentSockets c with
  | none =>
    exact ⟨rfl, rfl, rfl, rfl, rfl, fun r hr => Or.inr hr⟩
  | some a =>
    refine ⟨rfl, rfl, rfl, rfl, ?_, ?_⟩
    · show (resetAvailability db.agentLocations a).map coordsOf
        = db.agentLocations.map coordsOf
      unfold resetAvailability
      rw [List.map_map]
      apply List.map_congr_left
      intro x _
      by_cases hx : x.agentId = a
      · simp [coordsOf, hx]
      · simp [coordsOf, hx]
    · intro r hr
      have hr' : r ∈ (resetAvailability db.agentLocations a) := hr
      unfold resetAvailability at hr'
      rw [List.mem_map] at hr'
      obtain ⟨x, hx, rfl⟩ := hr'
      by_cases hcond : x.agentId == a
      · rw [if_pos hcond]
        exact Or.inl rfl
      · rw [if_neg hcond]
        exact Or.inr hx

/-- C10: the guard of the HTTP updateAgentLocation tests JavaScript
falsiness, so a request whose latitude or longitude equals 0 — a
coordinate inside the documented ranges — is rejected with the message
"Latitude and longitude required" and the database is left untouched. -/
theorem zero_coordinate_rejected (db : DB) (agentId : String) (lat lng : ℚ)
    (st : Option AgentLocationStatus) (h : lat = 0 ∨ lng = 0) :
    updateAgentLocation db agentId lat lng st
      = (.error "Latitude and longitude required", db) := by
  unfold updateAgentLocation
  rw [if_pos h]

/-- C10 witness: latitude 0 (the equator) with a perfectly valid longitude
is rejected and nothing is written. -/
theorem zero_coordinate_rejected_witness :
    updateAgentLocation dbOnDelivery "G" 0 50 none
      = (.error "Latitude and longitude required", dbOnDelivery) :=
  zero_coordinate_rejected dbOnDelivery "G" 0 50 none (Or.inl rfl)

end Parcour
